import Mathlib

/-!
Verification of the SVG-to-DST converter core (`convert.py`).

The development shallowly embeds the source program:

* real numbers of the source (Python floats) become `ℚ`;
* the SVG element tree (as seen through `xml.etree.ElementTree`) becomes
  `SvgInput` / `SvgElem`: a parsed document is the list of its
  namespace-matching descendant elements in document order, and a text that
  `ET.fromstring` rejects is `SvgInput.malformed`;
* element attributes become `Attr`: absent (Python defaults them to `0`),
  a numeric value, or a non-numeric string on which `float()` raises;
* Python exceptions become `Except String`; the `print(...)` warnings of the
  source become the `List String` component of extraction results;
* the trigonometric circle vertices (`math.cos` / `math.sin` in the source)
  are real-valued and not representable in `ℚ`, so the development is
  parameterised by the vertex tables `cq sq : ℕ → ℚ` (standing for
  `cos (2·π·i/16)` and `sin (2·π·i/16)`); every theorem holds for all
  tables, hence in particular for the floating-point one of the source.
  No claim under verification depends on the numeric vertex values.
-/

set_option maxRecDepth 100000

abbrev Pt := ℚ × ℚ

abbrev Polyline := List Pt

/-! ## Numeric-literal tokenizer

`re.findall(r'-?\d*\.?\d+', path_data)` from `parse_path_data`
(convert.py, line 118), embedded over `List Char` with Python's
leftmost, greedy-with-backtracking matching semantics.
-/

/-- Match `\d*\.?\d+` (with Python `re` backtracking) at the head of `s`;
on success return the matched literal and the remaining characters. -/
def numMatch (s : List Char) : Option (List Char × List Char) :=
  let ds := s.takeWhile Char.isDigit
  let r := s.dropWhile Char.isDigit
  if ds.isEmpty then
    match r with
    | '.' :: r2 =>
      let es := r2.takeWhile Char.isDigit
      if es.isEmpty then none
      else some ('.' :: es, r2.dropWhile Char.isDigit)
    | _ => none
  else
    match r with
    | '.' :: r2 =>
      let es := r2.takeWhile Char.isDigit
      if es.isEmpty then some (ds, r)
      else some (ds ++ '.' :: es, r2.dropWhile Char.isDigit)
    | _ => some (ds, r)

/-- Match `-?\d*\.?\d+` at the head of `s`.  A lone `-` with no following
number does not match (the backtracked empty `-?` cannot rescue it because
`\d+` then finds no digit at the `-`). -/
def tokenMatch (s : List Char) : Option (List Char × List Char) :=
  match s with
  | '-' :: t =>
    match numMatch t with
    | some (tok, rest) => some ('-' :: tok, rest)
    | none => none
  | _ => numMatch s

/-- Fuel-indexed scan of `re.findall`: at each position try to match a
numeric literal; on success continue after it, otherwise advance one
character.  Every successful match consumes at least one character, so
`fuel = s.length` (as used by `findNumbers`) never runs out. -/
def findNumbersF : ℕ → List Char → List (List Char)
  | 0, _ => []
  | _ + 1, [] => []
  | fuel + 1, c :: rest =>
    match tokenMatch (c :: rest) with
    | some (tok, r) => tok :: findNumbersF fuel r
    | none => findNumbersF fuel rest

/-- All numeric literals of `s`, as `re.findall(r'-?\d*\.?\d+', s)`. -/
def findNumbers (s : List Char) : List (List Char) :=
  findNumbersF s.length s

/-- Digits to a natural number (base 10). -/
def digitsToNat (ds : List Char) : ℕ :=
  ds.foldl (fun n c => 10 * n + (c.toNat - '0'.toNat)) 0

/-- Unsigned decimal literal (`digits`, `digits.digits` or `.digits`) to `ℚ`. -/
def decToRatPos (t : List Char) : ℚ :=
  let ds := t.takeWhile Char.isDigit
  let r := t.dropWhile Char.isDigit
  match r with
  | '.' :: es => (digitsToNat ds : ℚ) + (digitsToNat es : ℚ) / (10 : ℚ) ^ es.length
  | _ => (digitsToNat ds : ℚ)

/-- Signed decimal literal to `ℚ` (the embedding of Python `float(tok)` on a
token produced by the tokenizer). -/
def decToRat (tok : List Char) : ℚ :=
  match tok with
  | '-' :: t => - decToRatPos t
  | t => decToRatPos t

/-! ## Path data parsing (`parse_path_data`, convert.py lines 110-139) -/

/-- Pair consecutive numbers into points, dropping an unpaired trailing
number, as `for i in range(0, len(numbers) - 1, 2)` does. -/
def pairUp : List ℚ → List Pt
  | x :: y :: rest => (x, y) :: pairUp rest
  | _ => []

/-- `parse_path_data` (convert.py lines 110-139): tokenize the `d`
attribute into numeric literals, pair them into points, and yield one
polyline when at least two points result. -/
def parse_path_data (path_data : String) : List Polyline :=
  let numbers := (findNumbers path_data.toList).map decToRat
  if numbers.length < 4 then []
  else
    let points := pairUp numbers
    if 2 ≤ points.length then [points] else []

/-! ## SVG documents and attributes -/

/-- An attribute value as the source reads it: `elem.get(name, 0)` gives `0`
when absent; a present value is a string on which `float()` either succeeds
(`num`) or raises `ValueError` (`bad`). -/
inductive Attr where
  | absent : Attr
  | num : ℚ → Attr
  | bad : String → Attr
deriving DecidableEq

/-- A namespace-matching descendant element of the parsed document.  `other`
stands for any element that none of the three `findall` queries matches. -/
inductive SvgElem where
  | path (d : String)
  | rect (x y width height : Attr)
  | circle (cx cy r : Attr)
  | other
deriving DecidableEq

/-- The input to `extract_svg_paths`: either a text `ET.fromstring` rejects,
or the parsed document, represented by its namespace-matching descendant
elements in document order. -/
inductive SvgInput where
  | malformed (err : String)
  | doc (elems : List SvgElem)
deriving DecidableEq

/-- Embedding of Python `float(attr)`: absent defaults to `0`, a numeric
string converts, a non-numeric string raises `ValueError`. -/
def toF : Attr → Except String ℚ
  | .absent => .ok 0
  | .num q => .ok q
  | .bad s => .error ("could not convert string to float: " ++ s)

/-! ## Extraction (`extract_svg_paths`, convert.py lines 46-108) -/

/-- Polylines contributed by one element in the `path` pass
(convert.py lines 61-66): parse `d` when it is present and non-empty. -/
def pathElemPolys : SvgElem → List Polyline
  | .path d => if d = "" then [] else parse_path_data d
  | _ => []

/-- The five-corner closed rectangle polyline (convert.py lines 77-83). -/
def rectPoly (x y w h : ℚ) : Polyline :=
  [(x, y), (x + w, y), (x + w, y + h), (x, y + h), (x, y)]

/-- The `rect` pass (convert.py lines 69-84): convert the four attributes
with `float` (an unconvertible one raises, aborting the whole extraction),
and keep the rectangle when both width and height are positive. -/
def rectPass : List SvgElem → Except String (List Polyline)
  | [] => .ok []
  | .rect x y w h :: rest =>
    match toF x, toF y, toF w, toF h with
    | .ok xv, .ok yv, .ok wv, .ok hv =>
      (match rectPass rest with
       | .ok rs => .ok ((if 0 < wv ∧ 0 < hv then [rectPoly xv yv wv hv] else []) ++ rs)
       | .error e => .error e)
    | .error e, _, _, _ => .error e
    | _, .error e, _, _ => .error e
    | _, _, .error e, _ => .error e
    | _, _, _, .error e => .error e
  | _ :: rest => rectPass rest

/-- The 17-point closed polygon approximating a circle (convert.py lines
95-101): the 16 vertices at angles `2·π·i/16`, then the first vertex again.
`cq i` and `sq i` stand for the source's `math.cos` / `math.sin` values. -/
def circlePoly (cq sq : ℕ → ℚ) (cx cy r : ℚ) : Polyline :=
  (List.range 16).map (fun i => (cx + r * cq i, cy + r * sq i))
    ++ [(cx + r * cq 0, cy + r * sq 0)]

/-- The `circle` pass (convert.py lines 87-102). -/
def circlePass (cq sq : ℕ → ℚ) : List SvgElem → Except String (List Polyline)
  | [] => .ok []
  | .circle cx cy r :: rest =>
    match toF cx, toF cy, toF r with
    | .ok cxv, .ok cyv, .ok rv =>
      (match circlePass cq sq rest with
       | .ok cs => .ok ((if 0 < rv then [circlePoly cq sq cxv cyv rv] else []) ++ cs)
       | .error e => .error e)
    | .error e, _, _ => .error e
    | _, .error e, _ => .error e
    | _, _, .error e => .error e
  | _ :: rest => circlePass cq sq rest

/-- The body of the `try` block of `extract_svg_paths` (convert.py lines
58-104): the `path` pass (which cannot raise), then the `rect` pass, then
the `circle` pass; the first raised exception aborts everything. -/
def extractCore (cq sq : ℕ → ℚ) (elems : List SvgElem) :
    Except String (List Polyline) :=
  match rectPass elems with
  | .error e => .error e
  | .ok rs =>
    match circlePass cq sq elems with
    | .error e => .error e
    | .ok cs => .ok ((elems.map pathElemPolys).flatten ++ rs ++ cs)

/-- `extract_svg_paths` (convert.py lines 46-108): any exception — a parse
failure of the document or an unconvertible attribute — is caught, a
warning (`print(f"Error parsing SVG: {e}")`) is emitted, and the empty
list is returned.  The second component collects the emitted warnings. -/
def extract_svg_paths (cq sq : ℕ → ℚ) (input : SvgInput) :
    List Polyline × List String :=
  match input with
  | .malformed e => ([], ["Error parsing SVG: " ++ e])
  | .doc elems =>
    match extractCore cq sq elems with
    | .ok ps => (ps, [])
    | .error e => ([], ["Error parsing SVG: " ++ e])

/-! ## Garment profiles (`GARMENT_SETTINGS`, convert.py lines 22-44) -/

structure Settings where
  max_width_mm : ℚ
  max_height_mm : ℚ
  density : ℚ
  stitch_length : ℚ
  description : String
deriving DecidableEq

def hatSettings : Settings :=
  ⟨44.45, 44.45, 4.0, 3.0, "Hat front panel"⟩

def shirtSettings : Settings :=
  ⟨63.5, 88.9, 3.5, 3.5, "Shirt left chest"⟩

def jacketSettings : Settings :=
  ⟨127.0, 152.4, 3.0, 4.0, "Jacket back center"⟩

def GARMENT_SETTINGS : List (String × Settings) :=
  [("hat", hatSettings), ("shirt", shirtSettings), ("jacket", jacketSettings)]

/-- `GARMENT_SETTINGS.get(garment_type, GARMENT_SETTINGS['hat'])`
(convert.py line 144): case-sensitive lookup with the hat profile as
default. -/
def garmentGet (garment_type : String) : Settings :=
  (GARMENT_SETTINGS.lookup garment_type).getD hatSettings

/-! ## Planner (`convert_svg_to_dst`, convert.py lines 141-209) -/

/-- Abstract stitch commands (`pattern.move_abs`, `pattern.stitch_abs`,
`pattern.end()`). -/
inductive Cmd where
  | move : ℚ → ℚ → Cmd
  | stitch : ℚ → ℚ → Cmd
  | end_ : Cmd
deriving DecidableEq

/-- `min` of a non-empty list, as Python `min(xs)`; the `[]` case is never
reached behind the emptiness guard of the source. -/
def minList : List ℚ → ℚ
  | [] => 0
  | x :: xs => xs.foldl min x

/-- `max` of a non-empty list, as Python `max(xs)`. -/
def maxList : List ℚ → ℚ
  | [] => 0
  | x :: xs => xs.foldl max x

/-- `all_points` (convert.py lines 154-156). -/
def allPoints (paths : List Polyline) : List Pt := paths.flatten

def minX (paths : List Polyline) : ℚ := minList ((allPoints paths).map Prod.fst)

def maxX (paths : List Polyline) : ℚ := maxList ((allPoints paths).map Prod.fst)

def minY (paths : List Polyline) : ℚ := minList ((allPoints paths).map Prod.snd)

def maxY (paths : List Polyline) : ℚ := maxList ((allPoints paths).map Prod.snd)

/-- `width = max_x - min_x` (convert.py line 166). -/
def widthOf (paths : List Polyline) : ℚ := maxX paths - minX paths

/-- `height = max_y - min_y` (convert.py line 167). -/
def heightOf (paths : List Polyline) : ℚ := maxY paths - minY paths

/-- The scale factor (convert.py lines 172-175):
`scale = min(max_width_mm / width if width > 0 else 1,
max_height_mm / height if height > 0 else 1, 2.0)`. -/
def scaleOf (paths : List Polyline) (settings : Settings) : ℚ :=
  let w := widthOf paths
  let h := heightOf paths
  let scale_x := if 0 < w then settings.max_width_mm / w else 1
  let scale_y := if 0 < h then settings.max_height_mm / h else 1
  min (min scale_x scale_y) 2

/-- Commands emitted for one polyline (convert.py lines 181-198): nothing
for fewer than two points, else a MOVE to the first translated-and-scaled
point and a STITCH to each subsequent one. -/
def emitPath (mx my sc : ℚ) (path : Polyline) : List Cmd :=
  if path.length < 2 then []
  else
    match path with
    | [] => []
    | p0 :: rest =>
      Cmd.move ((p0.1 - mx) * sc) ((p0.2 - my) * sc) ::
        rest.map (fun p => Cmd.stitch ((p.1 - mx) * sc) ((p.2 - my) * sc))

/-- The full command sequence of one conversion: the per-polyline commands
back to back, then the single END appended by `pattern.end()`
(convert.py line 201). -/
def patternOf (paths : List Polyline) (settings : Settings) : List Cmd :=
  (paths.map (emitPath (minX paths) (minY paths) (scaleOf paths settings))).flatten
    ++ [Cmd.end_]

/-- The default square substituted when extraction yields nothing
(convert.py line 151). -/
def defaultSquare : Polyline := [(0, 0), (100, 0), (100, 100), (0, 100), (0, 0)]

/-- A successful conversion: the emitted pattern and the success message
returned by the source (`True, f"Successfully converted to {output_path}"`). -/
structure ConvOk where
  pattern : List Cmd
  message : String
deriving DecidableEq

/-- The geometry-to-pattern core of `convert_svg_to_dst` (convert.py lines
149-206), from the extracted polylines on: the empty-extraction
substitution, the bounds computation with its two failure returns, scaling,
stitch emission and the END.  `Except.error` models the `return False, msg`
paths, on which no pattern is built and no output is written. -/
def convertPaths (paths0 : List Polyline) (settings : Settings)
    (output_path : String) : Except String ConvOk :=
  let paths := if paths0.isEmpty then [defaultSquare] else paths0
  if (allPoints paths).isEmpty then .error "No valid paths found in SVG"
  else if widthOf paths ≤ 0 ∨ heightOf paths ≤ 0 then
    .error "Invalid SVG dimensions"
  else
    .ok ⟨patternOf paths settings, "Successfully converted to " ++ output_path⟩

/-- `convert_svg_to_dst` (convert.py lines 141-209): look the garment up,
extract, and run the planner core. -/
def convert_svg_to_dst (cq sq : ℕ → ℚ) (svg : SvgInput)
    (output_path garment_type : String) : Except String ConvOk :=
  let settings := garmentGet garment_type
  let paths0 := (extract_svg_paths cq sq svg).1
  convertPaths paths0 settings output_path

/-! ## Observation helpers for the claims -/

def isStitch : Cmd → Bool
  | .stitch _ _ => true
  | _ => false

def isEnd : Cmd → Bool
  | .end_ => true
  | _ => false

/-- The coordinate a command leaves the needle at, if any. -/
def coordOf : Cmd → Option Pt
  | .move x y => some (x, y)
  | .stitch x y => some (x, y)
  | .end_ => none

def startsWithMove : List Cmd → Bool
  | .move _ _ :: _ => true
  | _ => false

/-- `true` iff some STITCH command carries the same coordinate as the
immediately preceding command. -/
def hasDupStitch : List Cmd → Bool
  | c1 :: c2 :: rest =>
    (isStitch c2 && (coordOf c2 == coordOf c1)) || hasDupStitch (c2 :: rest)
  | _ => false

/-- The head of the command list, when present, is not a STITCH. -/
def headNotStitch : List Cmd → Bool
  | [] => true
  | c :: _ => !isStitch c

/-- No two consecutive points of the polyline are equal. -/
def noConsecDupPts : List Pt → Bool
  | p :: q :: rest => (p != q) && noConsecDupPts (q :: rest)
  | _ => true

/-- The pattern of a successful conversion (empty on failure). -/
def okPattern : Except String ConvOk → List Cmd
  | .ok r => r.pattern
  | .error _ => []

instance {ε α : Type} [DecidableEq ε] [DecidableEq α] : DecidableEq (Except ε α) := fun
  | .ok a, .ok b =>
    if h : a = b then .isTrue (by rw [h]) else .isFalse (by simp [h])
  | .ok _, .error _ => .isFalse (by simp)
  | .error _, .ok _ => .isFalse (by simp)
  | .error a, .error b =>
    if h : a = b then .isTrue (by rw [h]) else .isFalse (by simp [h])

/-- An attribute on which `float()` raises. -/
def attrBad : Attr → Bool
  | .bad _ => true
  | _ => false

/-- An element whose processing raises inside `extract_svg_paths`: a `rect`
or `circle` carrying a non-numeric attribute. -/
def elemHasBadAttr : SvgElem → Bool
  | .rect x y w h => attrBad x || attrBad y || attrBad w || attrBad h
  | .circle cx cy r => attrBad cx || attrBad cy || attrBad r
  | _ => false

/-- A `rect` element carrying some non-numeric attribute. -/
def badRectElem : SvgElem → Bool
  | .rect x y w h => attrBad x || attrBad y || attrBad w || attrBad h
  | _ => false

/-- A `circle` element carrying some non-numeric attribute. -/
def badCircleElem : SvgElem → Bool
  | .circle cx cy r => attrBad cx || attrBad cy || attrBad r
  | _ => false

/-- The numeric value of a good attribute (`0` when absent); the `bad` case
is arbitrary, used only under a no-bad-attribute hypothesis. -/
def attrVal : Attr → ℚ
  | .absent => 0
  | .num q => q
  | .bad _ => 0

/-- Pure per-element `rect` contribution, agreeing with `rectPass` on
documents without bad attributes. -/
def rectElemPolys : SvgElem → List Polyline
  | .rect x y w h =>
    if 0 < attrVal w ∧ 0 < attrVal h then
      [rectPoly (attrVal x) (attrVal y) (attrVal w) (attrVal h)]
    else []
  | _ => []

/-- Pure per-element `circle` contribution, agreeing with `circlePass` on
documents without bad attributes. -/
def circleElemPolys (cq sq : ℕ → ℚ) : SvgElem → List Polyline
  | .circle cx cy r =>
    if 0 < attrVal r then [circlePoly cq sq (attrVal cx) (attrVal cy) (attrVal r)]
    else []
  | _ => []

/-- Modelled from the spec (refinement target for claim C2): extraction
that walks the document once, emitting each element's polylines in place,
so that polylines of different element kinds interleave in document
order. -/
def extractInterleaved (cq sq : ℕ → ℚ) (elems : List SvgElem) : List Polyline :=
  (elems.map (fun e =>
    pathElemPolys e ++ rectElemPolys e ++ circleElemPolys cq sq e)).flatten

/-! ## Helper lemmas -/

lemma isEmpty_false_of_ne {α : Type} {l : List α} (h : l ≠ []) : l.isEmpty = false := by
  cases l with
  | nil => exact absurd rfl h
  | cons a t => rfl

/-- Inversion of a successful run of the planner core on a non-empty input:
the guards passed, so the bounds are non-degenerate and the pattern is
`patternOf`. -/
lemma convertPaths_ok_inv {paths0 : List Polyline} {s : Settings} {o : String}
    {r : ConvOk} (hne : paths0 ≠ []) (hok : convertPaths paths0 s o = .ok r) :
    0 < widthOf paths0 ∧ 0 < heightOf paths0 ∧ r.pattern = patternOf paths0 s := by
  have hpe : paths0.isEmpty = false := isEmpty_false_of_ne hne
  rw [convertPaths] at hok
  simp only [hpe, Bool.false_eq_true, if_false] at hok
  split at hok
  · exact absurd hok (by simp)
  · split at hok
    · exact absurd hok (by simp)
    · rename_i hdeg
      push_neg at hdeg
      refine ⟨hdeg.1, hdeg.2, ?_⟩
      cases hok
      rfl

/-! ## Claims C4, C5, C6 -/

/-- Claim C4: for every set of polylines with at least one point whose
bounding-box width or height is zero, the planner core fails with the
degenerate-geometry error (`return False, "Invalid SVG dimensions"`,
convert.py lines 169-170) — the structured error the spec calls
`DegenerateGeometryError` — and, the run ending in `Except.error`, no
pattern and no output buffer or file is produced (`pyembroidery.write_dst`
on line 204 is never reached). -/
theorem c4_degenerate (paths0 : List Polyline) (s : Settings) (o : String)
    (hpts : allPoints paths0 ≠ [])
    (hdeg : widthOf paths0 = 0 ∨ heightOf paths0 = 0) :
    convertPaths paths0 s o = .error "Invalid SVG dimensions" := by
  have hne : paths0 ≠ [] := by
    rintro rfl
    exact hpts rfl
  have h1 : paths0.isEmpty = false := isEmpty_false_of_ne hne
  have h2 : (allPoints paths0).isEmpty = false := isEmpty_false_of_ne hpts
  have h3 : widthOf paths0 ≤ 0 ∨ heightOf paths0 ≤ 0 := by
    rcases hdeg with h | h
    · exact Or.inl h.le
    · exact Or.inr h.le
  rw [convertPaths]
  simp [h1, h2, h3]

/-- Witness for C4: a two-point vertical polyline has width 0 and the
conversion fails with the degenerate-dimensions error. -/
theorem c4_witness :
    allPoints [[((0 : ℚ), (0 : ℚ)), (0, 5)]] ≠ []
    ∧ convertPaths [[(0, 0), (0, 5)]] hatSettings "out.dst"
        = .error "Invalid SVG dimensions" :=
  ⟨by with_unfolding_all decide,
   c4_degenerate [[(0, 0), (0, 5)]] hatSettings "out.dst"
     (by with_unfolding_all decide) (Or.inl (by with_unfolding_all decide))⟩

/-- Claim C5: for positive bounding-box width and height and any garment
profile, the scale factor equals
`min (max_width_mm / width) (max_height_mm / height) 2`, hence is at most
`2`, and scaling keeps the geometry inside the profile envelope
(`scale * width ≤ max_width_mm` and `scale * height ≤ max_height_mm`
exactly, which implies the claim's `≤ ... + ε` for every `ε ≥ 0`). -/
theorem c5_scale (paths : List Polyline) (s : Settings)
    (hw : 0 < widthOf paths) (hh : 0 < heightOf paths) :
    scaleOf paths s
      = min (min (s.max_width_mm / widthOf paths)
                 (s.max_height_mm / heightOf paths)) 2
    ∧ scaleOf paths s ≤ 2
    ∧ scaleOf paths s * widthOf paths ≤ s.max_width_mm
    ∧ scaleOf paths s * heightOf paths ≤ s.max_height_mm := by
  have he : scaleOf paths s
      = min (min (s.max_width_mm / widthOf paths)
                 (s.max_height_mm / heightOf paths)) 2 := by
    rw [scaleOf]
    simp [hw, hh]
  refine ⟨he, ?_, ?_, ?_⟩
  · rw [he]
    exact min_le_right _ _
  · rw [he]
    have h1 : min (min (s.max_width_mm / widthOf paths)
        (s.max_height_mm / heightOf paths)) 2 ≤ s.max_width_mm / widthOf paths :=
      le_trans (min_le_left _ _) (min_le_left _ _)
    exact (le_div_iff₀ hw).mp h1
  · rw [he]
    have h1 : min (min (s.max_width_mm / widthOf paths)
        (s.max_height_mm / heightOf paths)) 2 ≤ s.max_height_mm / heightOf paths :=
      le_trans (min_le_left _ _) (min_le_right _ _)
    exact (le_div_iff₀ hh).mp h1

/-- Witness for C5 at the default square (width = height = 100) and the
hat profile. -/
theorem c5_witness :
    (0 : ℚ) < widthOf [defaultSquare] ∧ (0 : ℚ) < heightOf [defaultSquare]
    ∧ scaleOf [defaultSquare] hatSettings
        = min (min (hatSettings.max_width_mm / widthOf [defaultSquare])
                   (hatSettings.max_height_mm / heightOf [defaultSquare])) 2
    ∧ scaleOf [defaultSquare] hatSettings ≤ 2
    ∧ scaleOf [defaultSquare] hatSettings * widthOf [defaultSquare]
        ≤ hatSettings.max_width_mm
    ∧ scaleOf [defaultSquare] hatSettings * heightOf [defaultSquare]
        ≤ hatSettings.max_height_mm := by
  have hw : (0 : ℚ) < widthOf [defaultSquare] := by with_unfolding_all decide
  have hh : (0 : ℚ) < heightOf [defaultSquare] := by with_unfolding_all decide
  obtain ⟨h1, h2, h3, h4⟩ := c5_scale [defaultSquare] hatSettings hw hh
  exact ⟨hw, hh, h1, h2, h3, h4⟩

/-- Claim C6: profile lookup is case-sensitive with the hat profile as the
default for unknown identifiers, and the three built-in profiles carry
exactly the claimed values (`GARMENT_SETTINGS`, convert.py lines 22-44;
lookup on line 144). -/
theorem c6_profiles :
    (∀ g : String, g ≠ "hat" → g ≠ "shirt" → g ≠ "jacket" →
      garmentGet g = hatSettings)
    ∧ garmentGet "hat" = hatSettings
    ∧ garmentGet "shirt" = shirtSettings
    ∧ garmentGet "jacket" = jacketSettings
    ∧ hatSettings.max_width_mm = 44.45 ∧ hatSettings.max_height_mm = 44.45
    ∧ hatSettings.density = 4 ∧ hatSettings.stitch_length = 3
    ∧ shirtSettings.max_width_mm = 63.5 ∧ shirtSettings.max_height_mm = 88.9
    ∧ shirtSettings.density = 3.5 ∧ shirtSettings.stitch_length = 3.5
    ∧ jacketSettings.max_width_mm = 127 ∧ jacketSettings.max_height_mm = 152.4
    ∧ jacketSettings.density = 3 ∧ jacketSettings.stitch_length = 4 := by
  refine ⟨?_, by rfl, by rfl, by rfl, ?_, ?_, ?_, ?_, ?_, ?_, ?_, ?_, ?_, ?_, ?_, ?_⟩
  · intro g h1 h2 h3
    have b1 : (g == "hat") = false := beq_eq_false_iff_ne.mpr h1
    have b2 : (g == "shirt") = false := beq_eq_false_iff_ne.mpr h2
    have b3 : (g == "jacket") = false := beq_eq_false_iff_ne.mpr h3
    simp [garmentGet, GARMENT_SETTINGS, List.lookup, b1, b2, b3]
  all_goals with_unfolding_all decide

/-- Witness for C6: an identifier differing from "hat" only in case falls
back to the hat profile (lookup is case-sensitive). -/
theorem c6_witness : garmentGet "Hat" = hatSettings :=
  c6_profiles.1 "Hat" (by decide) (by decide) (by decide)

/-! ## Claim C1 -/

/-- Claim C1, counterexample to the reporting half of the claim as stated:
extracting from the empty document yields zero polylines, the conversion
succeeds by substituting the default square — yet its result is literally
identical to the result of planning the default square directly.  The
result carries only the pattern and the fixed success message
(`True, f"Successfully converted to {output_path}"`, convert.py line 206;
the CLI result dict of lines 242-250 likewise has only
success/output_file/garment_type/settings/file_size/message fields), so no
`EmptyGeometrySubstituted` flag reaches the caller. -/
theorem c1_counterexample :
    (extract_svg_paths (fun _ => 1) (fun _ => 0) (.doc [])).1 = []
    ∧ convert_svg_to_dst (fun _ => 1) (fun _ => 0) (.doc []) "out.dst" "hat"
        = convertPaths [defaultSquare] hatSettings "out.dst" := by
  with_unfolding_all decide

/-- Claim C1 as amended: when extraction yields zero polylines the planner
substitutes the single default square polyline
`[(0,0),(100,0),(100,100),(0,100),(0,0)]` instead of failing — the
conversion succeeds for every profile — but the substitution is NOT
reported to the caller by any flag: the result equals the result of
converting the default square explicitly. -/
theorem c1_corrected (s : Settings) (o : String) :
    convertPaths [] s o = convertPaths [defaultSquare] s o
    ∧ convertPaths [] s o
        = .ok ⟨patternOf [defaultSquare] s, "Successfully converted to " ++ o⟩ := by
  have hw : widthOf [defaultSquare] = 100 := by with_unfolding_all decide
  have hh : heightOf [defaultSquare] = 100 := by with_unfolding_all decide
  have hnd : ¬(widthOf [defaultSquare] ≤ 0 ∨ heightOf [defaultSquare] ≤ 0) := by
    rw [hw, hh]
    norm_num
  have hpts : (allPoints [defaultSquare]).isEmpty = false := by
    with_unfolding_all decide
  constructor
  · rw [convertPaths, convertPaths]
    simp [hpts, hnd]
  · rw [convertPaths]
    simp [hpts, hnd]

/-! ## Claim C7 -/

/-- Claim C7: a `rect` element with numeric attributes yields exactly one
5-point closed polyline — the corners clockwise from `(x, y)`, start point
repeated at the end — when both width and height are positive, and yields
no polyline otherwise; a document containing only a degenerate rect
extracts identically to the empty document. -/
theorem c7_rect (cq sq : ℕ → ℚ) (x y w h : ℚ) :
    (0 < w → 0 < h →
      extract_svg_paths cq sq
          (.doc [.rect (.num x) (.num y) (.num w) (.num h)])
        = ([[(x, y), (x + w, y), (x + w, y + h), (x, y + h), (x, y)]], []))
    ∧ (w ≤ 0 ∨ h ≤ 0 →
      extract_svg_paths cq sq
          (.doc [.rect (.num x) (.num y) (.num w) (.num h)])
        = extract_svg_paths cq sq (.doc [])) := by
  constructor
  · intro hw hh
    simp [extract_svg_paths, extractCore, rectPass, circlePass, toF, hw, hh,
      rectPoly, pathElemPolys]
  · intro hd
    have hcond : ¬(0 < w ∧ 0 < h) := by
      rcases hd with h' | h'
      · exact fun hc => absurd hc.1 (not_lt.mpr h')
      · exact fun hc => absurd hc.2 (not_lt.mpr h')
    simp [extract_svg_paths, extractCore, rectPass, circlePass, toF, hcond,
      pathElemPolys]

/-- Witness for C7: a positive rect extracts to its five corners; a
zero-width rect extracts like the empty document. -/
theorem c7_witness :
    extract_svg_paths (fun _ => 1) (fun _ => 0)
        (.doc [.rect (.num 1) (.num 2) (.num 3) (.num 4)])
      = ([[(1, 2), (4, 2), (4, 6), (1, 6), (1, 2)]], [])
    ∧ extract_svg_paths (fun _ => 1) (fun _ => 0)
        (.doc [.rect (.num 0) (.num 0) (.num 0) (.num 9)])
      = extract_svg_paths (fun _ => 1) (fun _ => 0) (.doc []) := by
  constructor
  · have h := (c7_rect (fun _ => 1) (fun _ => 0) 1 2 3 4).1
      (by norm_num) (by norm_num)
    rw [h]
    norm_num
  · exact (c7_rect (fun _ => 1) (fun _ => 0) 0 0 0 9).2 (Or.inl le_rfl)

/-! ## Claim C9 -/

/-- Claim C9: the extractor never fails: it is a total function into
polyline lists.  A text the XML parser rejects degrades to the empty list
with the warning `Error parsing SVG: ...` emitted; more generally a
warning is only ever emitted together with the degraded empty result, and
a well-formed document with no extractable geometry yields the empty list.
(The source prints the warning, convert.py line 107; a geometry-free
well-formed document returns `[]` through the normal path without a
warning.) -/
theorem c9_extractor_total (cq sq : ℕ → ℚ) :
    (∀ e : String,
      extract_svg_paths cq sq (.malformed e) = ([], ["Error parsing SVG: " ++ e]))
    ∧ (∀ input : SvgInput,
      (extract_svg_paths cq sq input).2 ≠ [] → (extract_svg_paths cq sq input).1 = [])
    ∧ extract_svg_paths cq sq (.doc []) = ([], []) := by
  refine ⟨fun e => rfl, ?_, rfl⟩
  intro input hw
  cases input with
  | malformed e => rfl
  | doc elems =>
    rw [extract_svg_paths] at hw ⊢
    cases h : extractCore cq sq elems with
    | ok ps =>
      rw [h] at hw
      simp at hw
    | error e =>
      rfl

/-- Witness for C9 at a concrete malformed input. -/
theorem c9_witness :
    extract_svg_paths (fun _ => 1) (fun _ => 0) (.malformed "boom")
      = ([], ["Error parsing SVG: boom"])
    ∧ (extract_svg_paths (fun _ => 1) (fun _ => 0) (.malformed "boom")).1 = [] :=
  ⟨(c9_extractor_total (fun _ => 1) (fun _ => 0)).1 "boom",
   (c9_extractor_total (fun _ => 1) (fun _ => 0)).2.1 (.malformed "boom")
     (by decide)⟩

/-! ## Claim C8 -/

lemma pairUp_length : ∀ l : List ℚ, (pairUp l).length = l.length / 2
  | [] => rfl
  | [x] => by
    have h : pairUp [x] = [] := rfl
    rw [h]
    simp only [List.length_nil, List.length_cons]
  | x :: y :: rest => by
    rw [pairUp]
    simp only [List.length_cons]
    rw [pairUp_length rest]
    omega

lemma skip_char (fuel : ℕ) (c : Char) (cs : List Char)
    (h1 : c.isDigit = false) (h2 : c ≠ '.') (h3 : c ≠ '-') :
    findNumbersF (fuel + 1) (c :: cs) = findNumbersF fuel cs := by
  have htw : (c :: cs).takeWhile Char.isDigit = [] := by
    rw [List.takeWhile_cons, h1]
    simp
  have hdw : (c :: cs).dropWhile Char.isDigit = c :: cs := by
    rw [List.dropWhile_cons, h1]
    simp
  have hn : numMatch (c :: cs) = none := by
    simp only [numMatch, htw, hdw, List.isEmpty_nil, if_true]
    split
    · rename_i heq
      injection heq with hc _
      exact absurd hc h2
    · rfl
  have ht : tokenMatch (c :: cs) = none := by
    simp only [tokenMatch]
    split
    · rename_i t heq
      injection heq with hc _
      exact absurd hc h3
    · exact hn
  simp only [findNumbersF, ht]

/-- Claim C8: `parse_path_data` pairs the numeric literals of the `d`
attribute consecutively into points and yields exactly one polyline if and
only if the pairing gives at least two points (the source's early
`len(numbers) < 4` return coincides with that threshold, since the pairing
produces `⌊n/2⌋` points); and the tokenizer skips every character that is
not a digit, a dot or a minus — the path command letters never influence
the result. -/
theorem c8_path_pairing :
    (∀ d : String,
      parse_path_data d =
        if 2 ≤ (pairUp ((findNumbers d.toList).map decToRat)).length
        then [pairUp ((findNumbers d.toList).map decToRat)]
        else [])
    ∧ (∀ (fuel : ℕ) (c : Char) (cs : List Char),
        c.isDigit = false → c ≠ '.' → c ≠ '-' →
        findNumbersF (fuel + 1) (c :: cs) = findNumbersF fuel cs) := by
  refine ⟨?_, skip_char⟩
  intro d
  rw [parse_path_data]
  by_cases h4 : ((findNumbers d.toList).map decToRat).length < 4
  · have hp : ¬ 2 ≤ (pairUp ((findNumbers d.toList).map decToRat)).length := by
      rw [pairUp_length]
      omega
    rw [if_pos h4, if_neg hp]
  · rw [if_neg h4]

/-- Witness for C8: a concrete `d` attribute with command letters parses
to its paired coordinates, and a letter is skipped by the tokenizer. -/
theorem c8_witness :
    parse_path_data "M 10 20 L 30 40" = [[(10, 20), (30, 40)]]
    ∧ findNumbersF 2 ['Z', '9'] = findNumbersF 1 ['9'] := by
  constructor
  · rw [c8_path_pairing.1 "M 10 20 L 30 40"]
    with_unfolding_all decide
  · exact c8_path_pairing.2 1 'Z' ['9'] (by decide) (by decide) (by decide)

/-! ## Claims C10 and C2 -/

lemma elemHasBadAttr_eq (e : SvgElem) :
    elemHasBadAttr e = (badRectElem e || badCircleElem e) := by
  cases e <;> simp [elemHasBadAttr, badRectElem, badCircleElem]

lemma toF_ok_of_not_bad {a : Attr} (h : attrBad a = false) :
    toF a = .ok (attrVal a) := by
  cases a <;> simp_all [toF, attrBad, attrVal]

lemma toF_error_of_bad {a : Attr} (h : attrBad a = true) :
    ∃ m, toF a = .error m := by
  cases a <;> simp_all [toF, attrBad]

lemma rectPass_error_of_bad :
    ∀ {elems : List SvgElem}, elems.any badRectElem = true →
      ∃ m, rectPass elems = .error m := by
  intro elems h
  induction elems with
  | nil => simp at h
  | cons e rest ih =>
    rw [List.any_cons] at h
    cases e with
    | rect x y w h' =>
      cases hx : attrBad x with
      | true =>
        obtain ⟨m, hm⟩ := toF_error_of_bad hx
        exact ⟨m, by simp [rectPass, hm]⟩
      | false =>
        cases hy : attrBad y with
        | true =>
          obtain ⟨m, hm⟩ := toF_error_of_bad hy
          exact ⟨m, by simp [rectPass, toF_ok_of_not_bad hx, hm]⟩
        | false =>
          cases hw : attrBad w with
          | true =>
            obtain ⟨m, hm⟩ := toF_error_of_bad hw
            exact ⟨m, by
              simp [rectPass, toF_ok_of_not_bad hx, toF_ok_of_not_bad hy, hm]⟩
          | false =>
            cases hh : attrBad h' with
            | true =>
              obtain ⟨m, hm⟩ := toF_error_of_bad hh
              exact ⟨m, by
                simp [rectPass, toF_ok_of_not_bad hx, toF_ok_of_not_bad hy,
                  toF_ok_of_not_bad hw, hm]⟩
            | false =>
              have hbr : badRectElem (.rect x y w h') = false := by
                simp [badRectElem, hx, hy, hw, hh]
              rw [hbr] at h
              simp only [Bool.false_or] at h
              obtain ⟨m, hm⟩ := ih h
              exact ⟨m, by
                simp [rectPass, toF_ok_of_not_bad hx, toF_ok_of_not_bad hy,
                  toF_ok_of_not_bad hw, toF_ok_of_not_bad hh, hm]⟩
    | path d =>
      simp only [badRectElem, Bool.false_or] at h
      obtain ⟨m, hm⟩ := ih h
      exact ⟨m, by simp [rectPass, hm]⟩
    | circle cx cy r =>
      simp only [badRectElem, Bool.false_or] at h
      obtain ⟨m, hm⟩ := ih h
      exact ⟨m, by simp [rectPass, hm]⟩
    | other =>
      simp only [badRectElem, Bool.false_or] at h
      obtain ⟨m, hm⟩ := ih h
      exact ⟨m, by simp [rectPass, hm]⟩

lemma circlePass_error_of_bad (cq sq : ℕ → ℚ) :
    ∀ {elems : List SvgElem}, elems.any badCircleElem = true →
      ∃ m, circlePass cq sq elems = .error m := by
  intro elems h
  induction elems with
  | nil => simp at h
  | cons e rest ih =>
    rw [List.any_cons] at h
    cases e with
    | circle cx cy r =>
      cases hx : attrBad cx with
      | true =>
        obtain ⟨m, hm⟩ := toF_error_of_bad hx
        exact ⟨m, by simp [circlePass, hm]⟩
      | false =>
        cases hy : attrBad cy with
        | true =>
          obtain ⟨m, hm⟩ := toF_error_of_bad hy
          exact ⟨m, by simp [circlePass, toF_ok_of_not_bad hx, hm]⟩
        | false =>
          cases hr : attrBad r with
          | true =>
            obtain ⟨m, hm⟩ := toF_error_of_bad hr
            exact ⟨m, by
              simp [circlePass, toF_ok_of_not_bad hx, toF_ok_of_not_bad hy, hm]⟩
          | false =>
            have hbc : badCircleElem (.circle cx cy r) = false := by
              simp [badCircleElem, hx, hy, hr]
            rw [hbc] at h
            simp only [Bool.false_or] at h
            obtain ⟨m, hm⟩ := ih h
            exact ⟨m, by
              simp [circlePass, toF_ok_of_not_bad hx, toF_ok_of_not_bad hy,
                toF_ok_of_not_bad hr, hm]⟩
    | path d =>
      simp only [badCircleElem, Bool.false_or] at h
      obtain ⟨m, hm⟩ := ih h
      exact ⟨m, by simp [circlePass, hm]⟩
    | rect x y w h' =>
      simp only [badCircleElem, Bool.false_or] at h
      obtain ⟨m, hm⟩ := ih h
      exact ⟨m, by simp [circlePass, hm]⟩
    | other =>
      simp only [badCircleElem, Bool.false_or] at h
      obtain ⟨m, hm⟩ := ih h
      exact ⟨m, by simp [circlePass, hm]⟩

lemma rectPass_ok_of_no_bad :
    ∀ {elems : List SvgElem}, elems.any badRectElem = false →
      rectPass elems = .ok ((elems.map rectElemPolys).flatten) := by
  intro elems h
  induction elems with
  | nil => rfl
  | cons e rest ih =>
    rw [List.any_cons] at h
    rw [Bool.or_eq_false_iff] at h
    cases e with
    | rect x y w h' =>
      have ha := h.1
      simp only [badRectElem, Bool.or_eq_false_iff] at ha
      obtain ⟨⟨⟨hx, hy⟩, hw⟩, hh⟩ := ha
      simp [rectPass, toF_ok_of_not_bad hx, toF_ok_of_not_bad hy,
        toF_ok_of_not_bad hw, toF_ok_of_not_bad hh, ih h.2, rectElemPolys]
    | path d => simp [rectPass, rectElemPolys, ih h.2]
    | circle cx cy r => simp [rectPass, rectElemPolys, ih h.2]
    | other => simp [rectPass, rectElemPolys, ih h.2]

lemma circlePass_ok_of_no_bad (cq sq : ℕ → ℚ) :
    ∀ {elems : List SvgElem}, elems.any badCircleElem = false →
      circlePass cq sq elems = .ok ((elems.map (circleElemPolys cq sq)).flatten) := by
  intro elems h
  induction elems with
  | nil => rfl
  | cons e rest ih =>
    rw [List.any_cons] at h
    rw [Bool.or_eq_false_iff] at h
    cases e with
    | circle cx cy r =>
      have ha := h.1
      simp only [badCircleElem, Bool.or_eq_false_iff] at ha
      obtain ⟨⟨hx, hy⟩, hr⟩ := ha
      simp [circlePass, toF_ok_of_not_bad hx, toF_ok_of_not_bad hy,
        toF_ok_of_not_bad hr, ih h.2, circleElemPolys]
    | path d => simp [circlePass, circleElemPolys, ih h.2]
    | rect x y w h' => simp [circlePass, circleElemPolys, ih h.2]
    | other => simp [circlePass, circleElemPolys, ih h.2]

/-- Claim C10: one `rect` or `circle` element with a non-numeric attribute
makes the whole extraction return the empty sequence (with the warning
emitted), discarding every polyline already extracted from other
well-formed elements: the `float()` call raises inside the element loops
and the `except` of `extract_svg_paths` returns `[]` for the entire
document. -/
theorem c10_bad_attr (cq sq : ℕ → ℚ) (elems : List SvgElem)
    (hbad : elems.any elemHasBadAttr = true) :
    (extract_svg_paths cq sq (.doc elems)).1 = []
    ∧ (extract_svg_paths cq sq (.doc elems)).2 ≠ [] := by
  have h : elems.any badRectElem = true ∨ elems.any badCircleElem = true := by
    rw [List.any_eq_true] at hbad
    obtain ⟨e, he, hbe⟩ := hbad
    rw [elemHasBadAttr_eq] at hbe
    rcases Bool.or_eq_true_iff.mp hbe with h' | h'
    · exact Or.inl (List.any_eq_true.mpr ⟨e, he, h'⟩)
    · exact Or.inr (List.any_eq_true.mpr ⟨e, he, h'⟩)
  have herr : ∃ m, extractCore cq sq elems = .error m := by
    rcases h with h' | h'
    · obtain ⟨m, hm⟩ := rectPass_error_of_bad h'
      exact ⟨m, by simp [extractCore, hm]⟩
    · cases hr : rectPass elems with
      | error m => exact ⟨m, by simp [extractCore, hr]⟩
      | ok rs =>
        obtain ⟨m, hm⟩ := circlePass_error_of_bad cq sq h'
        exact ⟨m, by simp [extractCore, hr, hm]⟩
  obtain ⟨m, hm⟩ := herr
  rw [extract_svg_paths]
  simp [hm]

/-- Witness for C10: a document holding a well-formed path followed by a
rect with a non-numeric x attribute extracts to the empty sequence, the
path's polyline discarded, with a warning emitted. -/
theorem c10_witness :
    ([SvgElem.path "M 0 0 L 5 5",
      SvgElem.rect (.bad "abc") .absent .absent .absent].any elemHasBadAttr) = true
    ∧ (extract_svg_paths (fun _ => 1) (fun _ => 0)
        (.doc [SvgElem.path "M 0 0 L 5 5",
               SvgElem.rect (.bad "abc") .absent .absent .absent])).1 = []
    ∧ (extract_svg_paths (fun _ => 1) (fun _ => 0)
        (.doc [SvgElem.path "M 0 0 L 5 5",
               SvgElem.rect (.bad "abc") .absent .absent .absent])).2 ≠ [] :=
  ⟨by decide,
   c10_bad_attr (fun _ => 1) (fun _ => 0)
     [SvgElem.path "M 0 0 L 5 5",
      SvgElem.rect (.bad "abc") .absent .absent .absent] (by decide)⟩

/-- Claim C2, counterexample to interleaving: in a document holding a rect
element followed by a path element, extraction lists the path's polyline
first (the source runs three separate `findall` loops: all paths, then all
rects, then all circles), so the result differs from the spec's
document-order interleaved sequence. -/
theorem c2_counterexample :
    (extract_svg_paths (fun _ => 1) (fun _ => 0)
        (.doc [SvgElem.rect (.num 0) (.num 0) (.num 10) (.num 10),
               SvgElem.path "M 0 0 L 5 5"])).1
      ≠ extractInterleaved (fun _ => 1) (fun _ => 0)
          [SvgElem.rect (.num 0) (.num 0) (.num 10) (.num 10),
           SvgElem.path "M 0 0 L 5 5"] := by
  with_unfolding_all decide

/-- Claim C2 as amended: for documents without bad attributes, extraction
concatenates, in this order, the polylines of all `path` elements, then of
all `rect` elements, then of all `circle` elements — each group in
document order, with ordering inside each path's polyline following the
path's numeric-literal stream — rather than interleaving the element kinds
in document order. -/
theorem c2_corrected (cq sq : ℕ → ℚ) (elems : List SvgElem)
    (hgood : elems.any elemHasBadAttr = false) :
    (extract_svg_paths cq sq (.doc elems)).1
      = (elems.map pathElemPolys).flatten
        ++ (elems.map rectElemPolys).flatten
        ++ (elems.map (circleElemPolys cq sq)).flatten := by
  rw [List.any_eq_false] at hgood
  have h1 : elems.any badRectElem = false := by
    rw [List.any_eq_false]
    intro e he
    have hb := hgood e he
    rw [elemHasBadAttr_eq] at hb
    simp only [Bool.or_eq_true] at hb
    simp only [Bool.not_eq_true]
    cases hbr : badRectElem e
    · rfl
    · exact absurd (Or.inl hbr) hb
  have h2 : elems.any badCircleElem = false := by
    rw [List.any_eq_false]
    intro e he
    have hb := hgood e he
    rw [elemHasBadAttr_eq] at hb
    simp only [Bool.or_eq_true] at hb
    simp only [Bool.not_eq_true]
    cases hbc : badCircleElem e
    · rfl
    · exact absurd (Or.inr hbc) hb
  rw [extract_svg_paths]
  rw [extractCore, rectPass_ok_of_no_bad h1, circlePass_ok_of_no_bad cq sq h2]

/-- Witness for C2 at a concrete two-element document. -/
theorem c2_witness :
    ([SvgElem.rect (.num 0) (.num 0) (.num 10) (.num 10),
      SvgElem.path "M 0 0 L 5 5"].any elemHasBadAttr) = false
    ∧ (extract_svg_paths (fun _ => 1) (fun _ => 0)
        (.doc [SvgElem.rect (.num 0) (.num 0) (.num 10) (.num 10),
               SvgElem.path "M 0 0 L 5 5"])).1
      = ([SvgElem.rect (.num 0) (.num 0) (.num 10) (.num 10),
          SvgElem.path "M 0 0 L 5 5"].map pathElemPolys).flatten
        ++ ([SvgElem.rect (.num 0) (.num 0) (.num 10) (.num 10),
             SvgElem.path "M 0 0 L 5 5"].map rectElemPolys).flatten
        ++ ([SvgElem.rect (.num 0) (.num 0) (.num 10) (.num 10),
             SvgElem.path "M 0 0 L 5 5"].map
              (circleElemPolys (fun _ => 1) (fun _ => 0))).flatten :=
  ⟨by decide,
   c2_corrected (fun _ => 1) (fun _ => 0)
     [SvgElem.rect (.num 0) (.num 0) (.num 10) (.num 10),
      SvgElem.path "M 0 0 L 5 5"] (by decide)⟩

/-! ## Claim C3 -/

lemma hasDupStitch_cons₂ (a b : Cmd) (l : List Cmd) :
    hasDupStitch (a :: b :: l)
      = ((isStitch b && (coordOf b == coordOf a)) || hasDupStitch (b :: l)) := rfl

lemma hasDupStitch_append (l1 l2 : List Cmd) (h : headNotStitch l2 = true) :
    hasDupStitch (l1 ++ l2) = (hasDupStitch l1 || hasDupStitch l2) := by
  induction l1 with
  | nil => simp [hasDupStitch]
  | cons c t ih =>
    cases t with
    | nil =>
      cases l2 with
      | nil => simp [hasDupStitch]
      | cons c2 r =>
        have h2 : isStitch c2 = false := by
          rwa [headNotStitch, Bool.not_eq_true'] at h
        simp [List.singleton_append, hasDupStitch, h2]
    | cons c2 rest =>
      simp only [List.cons_append] at ih ⊢
      rw [hasDupStitch_cons₂ c c2 (rest ++ l2), hasDupStitch_cons₂ c c2 rest, ih,
        Bool.or_assoc]

lemma headNotStitch_append (l1 l2 : List Cmd) (h1 : headNotStitch l1 = true)
    (h2 : headNotStitch l2 = true) : headNotStitch (l1 ++ l2) = true := by
  cases l1 with
  | nil => simpa using h2
  | cons c t => simpa [headNotStitch] using h1

lemma emitPath_headNotStitch (mx my sc : ℚ) (p : Polyline) :
    headNotStitch (emitPath mx my sc p) = true := by
  unfold emitPath
  split
  · rfl
  · cases p with
    | nil => rfl
    | cons p0 rest => rfl

lemma emitPath_no_end (mx my sc : ℚ) (p : Polyline) :
    Cmd.end_ ∉ emitPath mx my sc p := by
  unfold emitPath
  split
  · simp
  · cases p with
    | nil => simp
    | cons p0 rest => simp [List.mem_map]

lemma startsWithMove_append (l1 l2 : List Cmd) (h : startsWithMove l1 = true) :
    startsWithMove (l1 ++ l2) = true := by
  cases l1 with
  | nil => simp [startsWithMove] at h
  | cons c t =>
    cases c with
    | move a b => rfl
    | stitch a b => simp [startsWithMove] at h
    | end_ => simp [startsWithMove] at h

lemma emitPath_startsWithMove (mx my sc : ℚ) (p : Polyline) (hlen : 2 ≤ p.length) :
    startsWithMove (emitPath mx my sc p) = true := by
  unfold emitPath
  rw [if_neg (by omega)]
  cases p with
  | nil => simp at hlen
  | cons p0 rest => rfl

lemma noDup_stitch_chain (mx my sc : ℚ) (hsc : sc ≠ 0) :
    ∀ (qs : List Pt) (prev : Pt) (c : Cmd),
      coordOf c = some ((prev.1 - mx) * sc, (prev.2 - my) * sc) →
      noConsecDupPts (prev :: qs) = true →
      hasDupStitch
        (c :: qs.map (fun p => Cmd.stitch ((p.1 - mx) * sc) ((p.2 - my) * sc)))
        = false
  | [], prev, c, hc, hnd => rfl
  | q :: qs, prev, c, hc, hnd => by
    rw [noConsecDupPts, Bool.and_eq_true] at hnd
    have hpq : prev ≠ q := bne_iff_ne.mp hnd.1
    have hTne : (((q.1 - mx) * sc, (q.2 - my) * sc) : Pt)
        ≠ ((prev.1 - mx) * sc, (prev.2 - my) * sc) := by
      intro he
      apply hpq
      rw [Prod.ext_iff] at he
      obtain ⟨h1, h2⟩ := he
      have e1 := mul_right_cancel₀ hsc h1
      have e2 := mul_right_cancel₀ hsc h2
      have e1' : q.1 = prev.1 := by linarith
      have e2' : q.2 = prev.2 := by linarith
      exact Prod.ext e1'.symm e2'.symm
    rw [List.map_cons, hasDupStitch_cons₂]
    rw [noDup_stitch_chain mx my sc hsc qs q
      (Cmd.stitch ((q.1 - mx) * sc) ((q.2 - my) * sc)) rfl hnd.2]
    rw [hc]
    simp [isStitch, coordOf, hTne]

lemma emitPath_noDup (mx my sc : ℚ) (hsc : sc ≠ 0) (p : Polyline)
    (hp : noConsecDupPts p = true) :
    hasDupStitch (emitPath mx my sc p) = false := by
  unfold emitPath
  split
  · rfl
  · cases p with
    | nil => rfl
    | cons p0 rest =>
      exact noDup_stitch_chain mx my sc hsc rest p0
        (Cmd.move ((p0.1 - mx) * sc) ((p0.2 - my) * sc)) rfl hp

lemma dupFree_flatten (segs : List (List Cmd))
    (h : ∀ l ∈ segs, hasDupStitch l = false ∧ headNotStitch l = true) :
    hasDupStitch segs.flatten = false ∧ headNotStitch segs.flatten = true := by
  induction segs with
  | nil => exact ⟨rfl, rfl⟩
  | cons s rest ih =>
    obtain ⟨hs, hh⟩ := h s (List.mem_cons_self s rest)
    obtain ⟨h1, h2⟩ := ih (fun l hl => h l (List.mem_cons_of_mem s hl))
    rw [List.flatten_cons]
    constructor
    · rw [hasDupStitch_append s rest.flatten h2, hs, h1]
      rfl
    · exact headNotStitch_append _ _ hh h2

lemma scaleOf_pos (paths : List Polyline) (s : Settings)
    (hw : 0 < widthOf paths) (hh : 0 < heightOf paths)
    (hmw : 0 < s.max_width_mm) (hmh : 0 < s.max_height_mm) :
    0 < scaleOf paths s := by
  rw [scaleOf]
  simp only [hw, hh, if_pos]
  exact lt_min (lt_min (div_pos hmw hw) (div_pos hmh hh)) (by norm_num)

lemma patternOf_getLast (paths : List Polyline) (s : Settings) :
    (patternOf paths s).getLast? = some Cmd.end_ := by
  rw [patternOf]
  exact List.getLast?_concat _

lemma patternOf_count_end (paths : List Polyline) (s : Settings) :
    (patternOf paths s).count Cmd.end_ = 1 := by
  rw [patternOf, List.count_append]
  have h0 : ((paths.map
      (emitPath (minX paths) (minY paths) (scaleOf paths s))).flatten).count
        Cmd.end_ = 0 := by
    rw [List.count_eq_zero]
    intro hmem
    rw [List.mem_flatten] at hmem
    obtain ⟨l, hl, hml⟩ := hmem
    rw [List.mem_map] at hl
    obtain ⟨p, hp, rfl⟩ := hl
    exact emitPath_no_end _ _ _ _ hml
  rw [h0]
  rfl

lemma patternOf_noDup (paths : List Polyline) (s : Settings)
    (hsc : scaleOf paths s ≠ 0) (hnd : ∀ p ∈ paths, noConsecDupPts p = true) :
    hasDupStitch (patternOf paths s) = false := by
  rw [patternOf]
  have hseg : ∀ l ∈ paths.map
      (emitPath (minX paths) (minY paths) (scaleOf paths s)),
      hasDupStitch l = false ∧ headNotStitch l = true := by
    intro l hl
    rw [List.mem_map] at hl
    obtain ⟨p, hp, rfl⟩ := hl
    exact ⟨emitPath_noDup _ _ _ hsc p (hnd p hp), emitPath_headNotStitch _ _ _ p⟩
  obtain ⟨h1, h2⟩ := dupFree_flatten _ hseg
  rw [hasDupStitch_append _ _ (show headNotStitch [Cmd.end_] = true from rfl), h1]
  rfl

/-- Claim C3, counterexample to the no-duplicate clause as stated: the
planner performs no deduplication, so a polyline with two consecutive
equal points (obtainable from a path such as `M 0 0 L 0 0 L 5 5`) produces
a STITCH whose coordinate equals that of the immediately preceding
command. -/
theorem c3_counterexample :
    (convertPaths [[((0 : ℚ), (0 : ℚ)), (0, 0), (5, 5)]] hatSettings
      "out.dst").isOk = true
    ∧ hasDupStitch (okPattern (convertPaths [[((0 : ℚ), (0 : ℚ)), (0, 0), (5, 5)]]
        hatSettings "out.dst")) = true := by
  with_unfolding_all decide

/-- Claim C3 as amended: for every non-empty list of polylines, each with
at least two points, on which the planner succeeds under a profile with a
positive envelope, the emitted pattern starts with a MOVE command and ends
with exactly one END command; and provided no input polyline contains two
consecutive equal points, the pattern contains no STITCH whose coordinate
equals the coordinate of the immediately preceding command.  (The source
performs no deduplication, so the last clause genuinely needs the
no-consecutive-duplicate proviso.) -/
theorem c3_corrected (paths0 : List Polyline) (s : Settings) (o : String)
    (r : ConvOk)
    (hmw : 0 < s.max_width_mm) (hmh : 0 < s.max_height_mm)
    (hne : paths0 ≠ [])
    (hlen : ∀ p ∈ paths0, 2 ≤ p.length)
    (hok : convertPaths paths0 s o = .ok r) :
    startsWithMove r.pattern = true
    ∧ r.pattern.getLast? = some Cmd.end_
    ∧ r.pattern.count Cmd.end_ = 1
    ∧ ((∀ p ∈ paths0, noConsecDupPts p = true) →
        hasDupStitch r.pattern = false) := by
  obtain ⟨hw, hh, hpat⟩ := convertPaths_ok_inv hne hok
  have hsc : scaleOf paths0 s ≠ 0 := (scaleOf_pos paths0 s hw hh hmw hmh).ne'
  refine ⟨?_, by rw [hpat]; exact patternOf_getLast paths0 s,
    by rw [hpat]; exact patternOf_count_end paths0 s,
    fun hnd => by rw [hpat]; exact patternOf_noDup paths0 s hsc hnd⟩
  rw [hpat, patternOf]
  cases paths0 with
  | nil => exact absurd rfl hne
  | cons p ps =>
    rw [List.map_cons, List.flatten_cons, List.append_assoc]
    exact startsWithMove_append _ _
      (emitPath_startsWithMove _ _ _ p (hlen p (List.mem_cons_self p ps)))

/-- Witness for C3 at the default square under the hat profile. -/
theorem c3_witness :
    convertPaths [defaultSquare] hatSettings "o"
      = .ok ⟨[Cmd.move 0 0, Cmd.stitch 44.45 0, Cmd.stitch 44.45 44.45,
              Cmd.stitch 0 44.45, Cmd.stitch 0 0, Cmd.end_],
             "Successfully converted to o"⟩
    ∧ startsWithMove [Cmd.move 0 0, Cmd.stitch 44.45 0, Cmd.stitch 44.45 44.45,
        Cmd.stitch 0 44.45, Cmd.stitch 0 0, Cmd.end_] = true
    ∧ [Cmd.move 0 0, Cmd.stitch 44.45 0, Cmd.stitch 44.45 44.45,
        Cmd.stitch 0 44.45, Cmd.stitch 0 0, Cmd.end_].getLast? = some Cmd.end_
    ∧ [Cmd.move 0 0, Cmd.stitch 44.45 0, Cmd.stitch 44.45 44.45,
        Cmd.stitch 0 44.45, Cmd.stitch 0 0, Cmd.end_].count Cmd.end_ = 1
    ∧ hasDupStitch [Cmd.move 0 0, Cmd.stitch 44.45 0, Cmd.stitch 44.45 44.45,
        Cmd.stitch 0 44.45, Cmd.stitch 0 0, Cmd.end_] = false := by
  have hok : convertPaths [defaultSquare] hatSettings "o"
      = .ok ⟨[Cmd.move 0 0, Cmd.stitch 44.45 0, Cmd.stitch 44.45 44.45,
              Cmd.stitch 0 44.45, Cmd.stitch 0 0, Cmd.end_],
             "Successfully converted to o"⟩ := by
    with_unfolding_all decide
  obtain ⟨h1, h2, h3, h4⟩ := c3_corrected [defaultSquare] hatSettings "o"
    ⟨[Cmd.move 0 0, Cmd.stitch 44.45 0, Cmd.stitch 44.45 44.45,
      Cmd.stitch 0 44.45, Cmd.stitch 0 0, Cmd.end_],
     "Successfully converted to o"⟩
    (by with_unfolding_all decide) (by with_unfolding_all decide)
    (by with_unfolding_all decide) (by with_unfolding_all decide) hok
  exact ⟨hok, h1, h2, h3, h4 (by with_unfolding_all decide)⟩
